import Mathlib

/-!
Shallow embedding of the material-calculation core (`src/package/models.py`
and `src/package/calculations.py`).

Python floats are modelled as exact rationals `ℚ`, `math.ceil` as `Int.ceil`,
and Python exceptions as an explicit `Except PyError`:
`ValueError` becomes `PyError.invalidArgument` (carrying the message string)
and a division by zero becomes `PyError.zeroDivisionError`, because Python
raises `ZeroDivisionError` when the float divisor is `0.0`.

Python methods mutate `self`; here state is passed explicitly: a method that
can both raise and mutate returns `Except PyError β × MaterialCalculator`,
where the returned state is the receiver's state after the call (unchanged
when the exception is raised before any mutation, as in the source).
-/

namespace Lab2

inductive PyError where
  | invalidArgument : String → PyError
  | zeroDivisionError : PyError
deriving DecidableEq

/-- `True` exactly when the result is a raised `ValueError` (`invalidArgument`). -/
def isInvalidArg {α : Type} : Except PyError α → Bool
  | Except.error (PyError.invalidArgument _) => true
  | _ => false

/-- `True` exactly when the result is any raised exception. -/
def isFailure {α : Type} : Except PyError α → Bool
  | Except.error _ => true
  | _ => false

/-- `models.Material`: base class; its `__init__` stores the three arguments
with no validation. -/
structure Material where
  name : String
  price_per_unit : ℚ
  unit_coverage : ℚ
deriving DecidableEq

/-- `Material.__init__(name, price_per_unit, unit_coverage)`. -/
def Material.init (name : String) (price_per_unit unit_coverage : ℚ) : Material :=
  ⟨name, price_per_unit, unit_coverage⟩

/-- `models.Wallpaper`, a `Material` subtype with roll dimensions. -/
structure Wallpaper extends Material where
  roll_width : ℚ
  roll_length : ℚ
deriving DecidableEq

/-- `Wallpaper.__init__`: `coverage = roll_width * roll_length`
(Python defaults: `roll_width=0.53`, `roll_length=10.05`). -/
def Wallpaper.init (name : String) (price_per_roll roll_width roll_length : ℚ) : Wallpaper :=
  let coverage := roll_width * roll_length
  ⟨⟨name, price_per_roll, coverage⟩, roll_width, roll_length⟩

/-- `models.Tile`, a `Material` subtype with tile dimensions and count per box. -/
structure Tile extends Material where
  tiles_per_box : ℕ
  tile_width : ℚ
  tile_height : ℚ
deriving DecidableEq

/-- `Tile.__init__`: `tile_area = tile_width * tile_height`;
`coverage = tile_area * tiles_per_box` (Python defaults: `0.3`, `0.3`). -/
def Tile.init (name : String) (price_per_box : ℚ) (tiles_per_box : ℕ)
    (tile_width tile_height : ℚ) : Tile :=
  let tile_area := tile_width * tile_height
  let coverage := tile_area * (tiles_per_box : ℚ)
  ⟨⟨name, price_per_box, coverage⟩, tiles_per_box, tile_width, tile_height⟩

/-- `models.Laminate`, a `Material` subtype with plank dimensions and count per pack. -/
structure Laminate extends Material where
  planks_per_pack : ℕ
  plank_width : ℚ
  plank_length : ℚ
deriving DecidableEq

/-- `Laminate.__init__`: `plank_area = plank_width * plank_length`;
`coverage = plank_area * planks_per_pack` (Python defaults: `0.193`, `1.380`). -/
def Laminate.init (name : String) (price_per_pack : ℚ) (planks_per_pack : ℕ)
    (plank_width plank_length : ℚ) : Laminate :=
  let plank_area := plank_width * plank_length
  let coverage := plank_area * (planks_per_pack : ℚ)
  ⟨⟨name, price_per_pack, coverage⟩, planks_per_pack, plank_width, plank_length⟩

/-- `models.CalculationResult`: record of one calculation's inputs/outputs. -/
structure CalculationResult where
  material : Material
  area : ℚ
  units_needed : ℤ
  total_cost : ℚ
  reserve_percent : ℚ
deriving DecidableEq

/-- `calculations.MaterialCalculator` instance state: `_reserve_percent`
and `_calculations_history`. -/
structure MaterialCalculator where
  reserve_percent : ℚ
  calculations_history : List CalculationResult
deriving DecidableEq

/-- `MaterialCalculator.__init__(reserve_percent)`: stores the argument with
no validation and starts with an empty history. -/
def MaterialCalculator.init (reserve_percent : ℚ) : MaterialCalculator :=
  ⟨reserve_percent, []⟩

/-- `MaterialCalculator.__init__()` with the Python default `reserve_percent=10`. -/
def MaterialCalculator.initDefault : MaterialCalculator :=
  MaterialCalculator.init 10

/-- The `reserve_percent` property setter: raises `ValueError` when
`value < 0 or value > 100`, otherwise stores the value. -/
def MaterialCalculator.set_reserve_percent (c : MaterialCalculator) (value : ℚ) :
    Except PyError MaterialCalculator :=
  if value < 0 ∨ value > 100 then
    Except.error (PyError.invalidArgument "Процент запаса должен быть от 0 до 100")
  else
    Except.ok { c with reserve_percent := value }

/-- The pure value computed on `MaterialCalculator.calculate`'s success path:
`area_with_reserve = area * (1 + reserve_percent / 100)`;
`units_needed = ceil(area_with_reserve / unit_coverage)`;
`total_cost = units_needed * price_per_unit`. -/
def calcResult (reserve_percent : ℚ) (material : Material) (area : ℚ) : CalculationResult :=
  let area_with_reserve := area * (1 + reserve_percent / 100)
  let units_needed := ⌈area_with_reserve / material.unit_coverage⌉
  let total_cost := (units_needed : ℚ) * material.price_per_unit
  ⟨material, area, units_needed, total_cost, reserve_percent⟩

/-- `MaterialCalculator.calculate(material, area)`: raises `ValueError` when
`area <= 0`; the `isinstance(material, Material)` check always passes in this
typed embedding; the division `area_with_reserve / material.unit_coverage`
raises `ZeroDivisionError` when `unit_coverage == 0` (Python float division);
otherwise builds a `CalculationResult`, appends it to the history and
returns it. On an exception the state is unchanged (the source raises before
any mutation). -/
def MaterialCalculator.calculate (c : MaterialCalculator) (material : Material) (area : ℚ) :
    Except PyError CalculationResult × MaterialCalculator :=
  if area ≤ 0 then
    (Except.error (PyError.invalidArgument "Площадь должна быть положительным числом"), c)
  else if material.unit_coverage = 0 then
    (Except.error PyError.zeroDivisionError, c)
  else
    let result := calcResult c.reserve_percent material area
    (Except.ok result, { c with calculations_history := c.calculations_history ++ [result] })

/-- `MaterialCalculator.get_history()`: `return self._calculations_history.copy()`.
The Python `.copy()` protects the internal list from caller mutation; Lean
lists are immutable values, so returning the list itself models the copy. -/
def MaterialCalculator.get_history (c : MaterialCalculator) : List CalculationResult :=
  c.calculations_history

/-- `MaterialCalculator.clear_history()`: `self._calculations_history.clear()`. -/
def MaterialCalculator.clear_history (c : MaterialCalculator) : MaterialCalculator :=
  { c with calculations_history := [] }

/-- The loop of `compare_materials`: `for material in materials:
result = self.calculate(material, area); results.append(result)`.
An exception raised by `calculate` propagates, keeping the mutations
(history appends) already performed. -/
def compareLoop (area : ℚ) (c : MaterialCalculator) :
    List Material → Except PyError (List CalculationResult) × MaterialCalculator
  | [] => (Except.ok [], c)
  | m :: rest =>
    match c.calculate m area with
    | (Except.error e, c₁) => (Except.error e, c₁)
    | (Except.ok r, c₁) =>
      match compareLoop area c₁ rest with
      | (Except.error e, c₂) => (Except.error e, c₂)
      | (Except.ok rs, c₂) => (Except.ok (r :: rs), c₂)

/-- Stable insertion used to model Python's stable ascending
`results.sort(key=lambda r: r.total_cost)`: an element is inserted after
every element of strictly smaller cost and before the first element of
greater-or-equal cost. -/
def insertByCost (r : CalculationResult) : List CalculationResult → List CalculationResult
  | [] => [r]
  | x :: xs => if x.total_cost < r.total_cost then x :: insertByCost r xs else r :: x :: xs

/-- Stable sort by `total_cost`, modelling `list.sort(key=lambda r: r.total_cost)`
(Python's sort is stable and ascending). -/
def sortByCost : List CalculationResult → List CalculationResult
  | [] => []
  | r :: rs => insertByCost r (sortByCost rs)

/-- `MaterialCalculator.compare_materials(materials, area)`: raises
`ValueError` when `materials` is empty (`if not materials`), otherwise runs
`calculate` per material and returns the results sorted by cost. -/
def MaterialCalculator.compare_materials (c : MaterialCalculator)
    (materials : List Material) (area : ℚ) :
    Except PyError (List CalculationResult) × MaterialCalculator :=
  if materials.isEmpty then
    (Except.error (PyError.invalidArgument "Список материалов не может быть пустым"), c)
  else
    match compareLoop area c materials with
    | (Except.error e, c₁) => (Except.error e, c₁)
    | (Except.ok results, c₁) => (Except.ok (sortByCost results), c₁)

namespace RoomCalculator

/-- `RoomCalculator.calculate_wall_area(perimeter, height, door_area, window_area)`
(the method reads no instance state): raises `ValueError` when
`perimeter <= 0 or height <= 0`, when `door_area < 0 or window_area < 0`,
or when `perimeter*height - door_area - window_area <= 0`; otherwise returns
that difference. -/
def calculate_wall_area (perimeter height door_area window_area : ℚ) : Except PyError ℚ :=
  if perimeter ≤ 0 ∨ height ≤ 0 then
    Except.error (PyError.invalidArgument "Периметр и высота должны быть положительными")
  else if door_area < 0 ∨ window_area < 0 then
    Except.error (PyError.invalidArgument "Площади дверей и окон не могут быть отрицательными")
  else
    let total_wall_area := perimeter * height
    let result_area := total_wall_area - door_area - window_area
    if result_area ≤ 0 then
      Except.error
        (PyError.invalidArgument "Площадь стен после вычета дверей и окон должна быть положительной")
    else
      Except.ok result_area

end RoomCalculator

/-! ### Helper lemmas about the embedded operations -/

/-- On valid inputs, `calculate` succeeds with the pure `calcResult` value and
appends it to the history. -/
theorem calculate_ok (c : MaterialCalculator) (m : Material) (area : ℚ)
    (ha : 0 < area) (hcov : m.unit_coverage ≠ 0) :
    c.calculate m area =
      (Except.ok (calcResult c.reserve_percent m area),
       { c with calculations_history :=
          c.calculations_history ++ [calcResult c.reserve_percent m area] }) := by
  unfold MaterialCalculator.calculate
  rw [if_neg (not_le.mpr ha), if_neg hcov]

/-- `calculate` never changes `reserve_percent`. -/
theorem calculate_reserve (c : MaterialCalculator) (m : Material) (area : ℚ) :
    (c.calculate m area).2.reserve_percent = c.reserve_percent := by
  unfold MaterialCalculator.calculate
  split_ifs <;> rfl

/-- The `compare_materials` loop never changes `reserve_percent`. -/
theorem compareLoop_reserve (area : ℚ) (materials : List Material) (c : MaterialCalculator) :
    (compareLoop area c materials).2.reserve_percent = c.reserve_percent := by
  induction materials generalizing c with
  | nil => rfl
  | cons m rest ih =>
    rcases hstep : MaterialCalculator.calculate c m area with ⟨res, c₁⟩
    have hres : c₁.reserve_percent = c.reserve_percent := by
      have h := calculate_reserve c m area
      rw [hstep] at h
      exact h
    cases res with
    | error e => simp [compareLoop, hstep, hres]
    | ok r =>
      rcases hloop : compareLoop area c₁ rest with ⟨res₂, c₂⟩
      have h2 : c₂.reserve_percent = c₁.reserve_percent := by
        have h := ih c₁
        rw [hloop] at h
        exact h
      cases res₂ <;> simp [compareLoop, hstep, hloop, hres, h2]

/-- On valid inputs the `compare_materials` loop succeeds, producing the
`calcResult` of each material in input order and appending them all to the
history in that order. -/
theorem compareLoop_ok (area : ℚ) (materials : List Material) (c : MaterialCalculator)
    (ha : 0 < area) (hcov : ∀ m ∈ materials, m.unit_coverage ≠ 0) :
    compareLoop area c materials =
      (Except.ok (materials.map (fun m => calcResult c.reserve_percent m area)),
       { c with calculations_history :=
          c.calculations_history ++
            materials.map (fun m => calcResult c.reserve_percent m area) }) := by
  induction materials generalizing c with
  | nil => simp [compareLoop]
  | cons m rest ih =>
    have hm : m.unit_coverage ≠ 0 := hcov m (List.mem_cons_self m rest)
    have hrest : ∀ x ∈ rest, x.unit_coverage ≠ 0 := fun x hx => hcov x (List.mem_cons_of_mem m hx)
    simp only [compareLoop, calculate_ok c m area ha hm, ih _ hrest, List.map_cons]
    simp [List.append_assoc]

/-- The cost order used by `compare_materials`' sort. -/
def costLe (a b : CalculationResult) : Prop :=
  a.total_cost ≤ b.total_cost

/-- `insertByCost` inserts its element somewhere in the list: the result is a
permutation of consing it in front. -/
theorem insertByCost_perm (r : CalculationResult) (l : List CalculationResult) :
    List.Perm (insertByCost r l) (r :: l) := by
  induction l with
  | nil => exact List.Perm.refl _
  | cons x xs ih =>
    simp only [insertByCost]
    split_ifs with h
    · exact (ih.cons x).trans (List.Perm.swap r x xs)
    · exact List.Perm.refl _

/-- `sortByCost` permutes its input. -/
theorem sortByCost_perm (l : List CalculationResult) : List.Perm (sortByCost l) l := by
  induction l with
  | nil => exact List.Perm.refl _
  | cons r rs ih => exact (insertByCost_perm r (sortByCost rs)).trans (ih.cons r)

/-- Inserting into a cost-sorted list keeps it cost-sorted. -/
theorem insertByCost_sorted (r : CalculationResult) (l : List CalculationResult)
    (h : List.Sorted costLe l) : List.Sorted costLe (insertByCost r l) := by
  induction l with
  | nil => simp [insertByCost, costLe]
  | cons x xs ih =>
    rw [List.sorted_cons] at h
    simp only [insertByCost]
    split_ifs with hlt
    · rw [List.sorted_cons]
      refine ⟨?_, ih h.2⟩
      intro b hb
      rcases List.mem_cons.mp ((insertByCost_perm r xs).mem_iff.mp hb) with hb | hb
      · rw [hb]
        exact le_of_lt hlt
      · exact h.1 b hb
    · rw [List.sorted_cons]
      refine ⟨?_, List.sorted_cons.mpr h⟩
      intro b hb
      rcases List.mem_cons.mp hb with hb | hb
      · rw [hb]
        exact not_lt.mp hlt
      · exact le_trans (not_lt.mp hlt) (h.1 b hb)

/-- `sortByCost` sorts by non-decreasing `total_cost`. -/
theorem sortByCost_sorted (l : List CalculationResult) : List.Sorted costLe (sortByCost l) := by
  induction l with
  | nil => simp [sortByCost]
  | cons r rs ih => exact insertByCost_sorted r (sortByCost rs) ih

/-- Elements of any given cost keep their relative order through `insertByCost`:
the inserted element lands before every existing element of equal cost. -/
theorem insertByCost_filter (r : CalculationResult) (l : List CalculationResult) (q : ℚ) :
    (insertByCost r l).filter (fun x => decide (x.total_cost = q)) =
      if r.total_cost = q
      then r :: l.filter (fun x => decide (x.total_cost = q))
      else l.filter (fun x => decide (x.total_cost = q)) := by
  induction l with
  | nil =>
    by_cases hr : r.total_cost = q <;> simp [insertByCost, List.filter_cons, hr]
  | cons x xs ih =>
    simp only [insertByCost]
    by_cases hlt : x.total_cost < r.total_cost
    · rw [if_pos hlt]
      by_cases hr : r.total_cost = q
      · have hx : ¬ x.total_cost = q := by
          intro hx
          rw [hx, ← hr] at hlt
          exact lt_irrefl _ hlt
        simp [List.filter_cons, hx, ih, hr]
      · simp [List.filter_cons, ih, hr]
    · rw [if_neg hlt]
      by_cases hr : r.total_cost = q <;> simp [List.filter_cons, hr]

/-- Stability of `sortByCost`: for every cost value `q`, the sublist of
results costing exactly `q` is unchanged by the sort. -/
theorem sortByCost_filter (l : List CalculationResult) (q : ℚ) :
    (sortByCost l).filter (fun x => decide (x.total_cost = q)) =
      l.filter (fun x => decide (x.total_cost = q)) := by
  induction l with
  | nil => rfl
  | cons r rs ih =>
    by_cases hr : r.total_cost = q <;>
      simp [sortByCost, insertByCost_filter, ih, List.filter_cons, hr]

/-! ### Claim theorems -/

/-- C1 (amended): for every material `m` with `unit_coverage > 0` and
`price_per_unit ≥ 0` and every `area > 0`, `calculate` returns a result with
`units_needed = ceil(area * (1 + r/100) / unit_coverage)` and
`total_cost = units_needed * price_per_unit` exactly, appending it to the
history; moreover, whenever the calculator's `reserve_percent` exceeds `-100`
(in particular whenever it lies in `[0, 100]`), `units_needed` is a positive
integer and `total_cost ≥ 0`. The unconditional positivity claimed by the
spec fails because the constructor accepts any `reserve_percent`. -/
theorem C1_calculate_formula (c : MaterialCalculator) (m : Material) (area : ℚ)
    (hcov : 0 < m.unit_coverage) (hp : 0 ≤ m.price_per_unit) (ha : 0 < area) :
    (c.calculate m area).1 = Except.ok (calcResult c.reserve_percent m area) ∧
    (c.calculate m area).2 =
      { c with calculations_history :=
          c.calculations_history ++ [calcResult c.reserve_percent m area] } ∧
    (calcResult c.reserve_percent m area).units_needed =
      ⌈area * (1 + c.reserve_percent / 100) / m.unit_coverage⌉ ∧
    (calcResult c.reserve_percent m area).total_cost =
      ((calcResult c.reserve_percent m area).units_needed : ℚ) * m.price_per_unit ∧
    (-100 < c.reserve_percent →
      0 < (calcResult c.reserve_percent m area).units_needed ∧
      0 ≤ (calcResult c.reserve_percent m area).total_cost) := by
  have hok := calculate_ok c m area ha (ne_of_gt hcov)
  refine ⟨by rw [hok], by rw [hok], rfl, rfl, ?_⟩
  intro hr
  have hx : 0 < area * (1 + c.reserve_percent / 100) / m.unit_coverage := by
    apply div_pos _ hcov
    apply mul_pos ha
    linarith
  have hu : 0 < (calcResult c.reserve_percent m area).units_needed := Int.ceil_pos.mpr hx
  refine ⟨hu, ?_⟩
  show 0 ≤ ((calcResult c.reserve_percent m area).units_needed : ℚ) * m.price_per_unit
  apply mul_nonneg _ hp
  exact_mod_cast le_of_lt hu

/-- C1 witness: the spec's worked example — reserve 10 %, coverage 5.3265,
area 23.17 → 5 units. -/
theorem C1_calculate_formula_witness :
    ((MaterialCalculator.init 10).calculate
        (Material.init "w" 1500 (5.3265 : ℚ)) (23.17 : ℚ)).1 =
      Except.ok (calcResult 10 (Material.init "w" 1500 (5.3265 : ℚ)) (23.17 : ℚ)) ∧
    (calcResult 10 (Material.init "w" 1500 (5.3265 : ℚ)) (23.17 : ℚ)).units_needed = 5 := by
  refine ⟨(C1_calculate_formula (MaterialCalculator.init 10)
    (Material.init "w" 1500 (5.3265 : ℚ)) (23.17 : ℚ)
    (by norm_num [Material.init]) (by norm_num [Material.init]) (by norm_num)).1, ?_⟩
  show (⌈(23.17 : ℚ) * (1 + 10 / 100) / 5.3265⌉ : ℤ) = 5
  rw [Int.ceil_eq_iff]
  norm_num

/-- C1 counterexample: the constructor accepts `reserve_percent = -200`
without validation; then for a material with coverage 1 and price 2 and
area 1, `calculate` succeeds with `units_needed = -1` (not positive) and
`total_cost = -2 < 0`, refuting the claim's unconditional positivity. -/
theorem C1_calculate_formula_counterexample :
    ((MaterialCalculator.init (-200)).calculate (Material.init "m" 2 1) 1).1 =
      Except.ok (calcResult (-200) (Material.init "m" 2 1) 1) ∧
    (calcResult (-200) (Material.init "m" 2 1) 1).units_needed = -1 ∧
    (calcResult (-200) (Material.init "m" 2 1) 1).total_cost = -2 ∧
    ¬ 0 < (calcResult (-200) (Material.init "m" 2 1) 1).units_needed ∧
    ¬ 0 ≤ (calcResult (-200) (Material.init "m" 2 1) 1).total_cost := by
  have hu : (calcResult (-200) (Material.init "m" 2 1) 1).units_needed = -1 := by
    show (⌈(1 : ℚ) * (1 + (-200) / 100) / 1⌉ : ℤ) = -1
    rw [Int.ceil_eq_iff]
    norm_num
  have hc : (calcResult (-200) (Material.init "m" 2 1) 1).total_cost = -2 := by
    show ((calcResult (-200) (Material.init "m" 2 1) 1).units_needed : ℚ) * 2 = -2
    rw [hu]
    norm_num
  refine ⟨?_, hu, hc, ?_, ?_⟩
  · rw [calculate_ok (MaterialCalculator.init (-200)) (Material.init "m" 2 1) 1
      (by norm_num) (by norm_num [Material.init])]
    rfl
  · rw [hu]
    norm_num
  · rw [hc]
    norm_num

/-- C2: `calculate` fails with `InvalidArgument` iff `area ≤ 0` (in this
typed embedding every `material` argument is a `Material` value, so the
unrecognized-material disjunct is vacuous); on any failure the state — in
particular the history — is unchanged and no result is produced; the
concrete calls with area `0` and `-5` fail with `InvalidArgument`. -/
theorem C2_invalid_argument_iff (c : MaterialCalculator) (m : Material) (area : ℚ) :
    (isInvalidArg (c.calculate m area).1 = true ↔ area ≤ 0) ∧
    (isFailure (c.calculate m area).1 = true → (c.calculate m area).2 = c) ∧
    isInvalidArg (c.calculate m 0).1 = true ∧
    isInvalidArg (c.calculate m (-5)).1 = true := by
  refine ⟨?_, ?_, ?_, ?_⟩
  · unfold MaterialCalculator.calculate
    split_ifs with h1 h2 <;> simp [isInvalidArg, h1]
  · unfold MaterialCalculator.calculate
    split_ifs <;> simp [isFailure]
  · norm_num [MaterialCalculator.calculate, isInvalidArg]
  · norm_num [MaterialCalculator.calculate, isInvalidArg]

/-- C2 witness: at area `0` the call fails and the calculator state is
unchanged. -/
theorem C2_invalid_argument_iff_witness :
    ((MaterialCalculator.initDefault).calculate (Material.init "m" 1 1) 0).2 =
      MaterialCalculator.initDefault :=
  (C2_invalid_argument_iff MaterialCalculator.initDefault (Material.init "m" 1 1) 0).2.1
    (by norm_num [MaterialCalculator.calculate, isFailure])

/-- C3: `compare_materials` fails with `InvalidArgument` on an empty list;
otherwise (for inputs on which `calculate` succeeds: positive area, nonzero
coverages) it runs `calculate` once per material in input order, appends all
`len(materials)` results to the history in that order, and returns the
results sorted by non-decreasing `total_cost`; the sort is a permutation and
is stable: for every cost value the sublist of results with that exact cost
is unchanged. -/
theorem C3_compare_materials (c : MaterialCalculator) (materials : List Material) (area : ℚ)
    (hne : materials ≠ []) (ha : 0 < area) (hcov : ∀ m ∈ materials, m.unit_coverage ≠ 0) :
    isInvalidArg (c.compare_materials [] area).1 = true ∧
    (c.compare_materials materials area).1 =
      Except.ok (sortByCost (materials.map (fun m => calcResult c.reserve_percent m area))) ∧
    (c.compare_materials materials area).2.calculations_history =
      c.calculations_history ++ materials.map (fun m => calcResult c.reserve_percent m area) ∧
    (materials.map (fun m => calcResult c.reserve_percent m area)).length =
      materials.length ∧
    List.Sorted costLe
      (sortByCost (materials.map (fun m => calcResult c.reserve_percent m area))) ∧
    List.Perm (sortByCost (materials.map (fun m => calcResult c.reserve_percent m area)))
      (materials.map (fun m => calcResult c.reserve_percent m area)) ∧
    ∀ q : ℚ,
      (sortByCost (materials.map (fun m => calcResult c.reserve_percent m area))).filter
          (fun x => decide (x.total_cost = q)) =
        (materials.map (fun m => calcResult c.reserve_percent m area)).filter
          (fun x => decide (x.total_cost = q)) := by
  have hemp : materials.isEmpty = false := by
    cases materials with
    | nil => exact absurd rfl hne
    | cons a l => rfl
  have hloop := compareLoop_ok area materials c ha hcov
  refine ⟨rfl, ?_, ?_, by simp, sortByCost_sorted _, sortByCost_perm _,
    fun q => sortByCost_filter _ q⟩
  · simp [MaterialCalculator.compare_materials, hemp, hloop]
  · simp [MaterialCalculator.compare_materials, hemp, hloop]

/-- C3 witness: two materials of coverage 1 with prices 2 and 1 at area 1,
reserve 0. -/
theorem C3_compare_materials_witness :
    ((MaterialCalculator.init 0).compare_materials
        [Material.init "a" 2 1, Material.init "b" 1 1] 1).1 =
      Except.ok (sortByCost ([Material.init "a" 2 1, Material.init "b" 1 1].map
        (fun m => calcResult (MaterialCalculator.init 0).reserve_percent m 1))) :=
  (C3_compare_materials (MaterialCalculator.init 0)
    [Material.init "a" 2 1, Material.init "b" 1 1] 1 (by simp) (by norm_num)
    (by norm_num [Material.init])).2.1

/-- C4 (amended): the `reserve_percent` setter fails with `InvalidArgument`
exactly when the value is outside `[0, 100]` (so setting `-1` and `101` fail
while `0` and `100` succeed and update the state), any state produced by a
successful set has `reserve_percent ∈ [0, 100]`, construction with the
default argument `10` satisfies the invariant, and `calculate`,
`clear_history` and `compare_materials` never change `reserve_percent`.
However the constructor does not validate its argument, so a calculator
whose `reserve_percent` lies outside `[0, 100]` is reachable by
construction — the spec's "every reachable state" fails there. -/
theorem C4_reserve_setter_contract (c c₂ : MaterialCalculator) (v area : ℚ) (m : Material)
    (materials : List Material) :
    (isFailure (c.set_reserve_percent v) = true ↔ v < 0 ∨ v > 100) ∧
    (0 ≤ v → v ≤ 100 → c.set_reserve_percent v = Except.ok { c with reserve_percent := v }) ∧
    isFailure (c.set_reserve_percent (-1)) = true ∧
    isFailure (c.set_reserve_percent 101) = true ∧
    c.set_reserve_percent 0 = Except.ok { c with reserve_percent := 0 } ∧
    c.set_reserve_percent 100 = Except.ok { c with reserve_percent := 100 } ∧
    (0 ≤ MaterialCalculator.initDefault.reserve_percent ∧
      MaterialCalculator.initDefault.reserve_percent ≤ 100) ∧
    (c.set_reserve_percent v = Except.ok c₂ →
      0 ≤ c₂.reserve_percent ∧ c₂.reserve_percent ≤ 100) ∧
    (c.calculate m area).2.reserve_percent = c.reserve_percent ∧
    (c.clear_history).reserve_percent = c.reserve_percent ∧
    (c.compare_materials materials area).2.reserve_percent = c.reserve_percent := by
  refine ⟨?_, ?_, ?_, ?_, ?_, ?_, by norm_num [MaterialCalculator.initDefault,
    MaterialCalculator.init], ?_, calculate_reserve c m area, rfl, ?_⟩
  · unfold MaterialCalculator.set_reserve_percent
    split_ifs with h
    · exact iff_of_true rfl h
    · exact iff_of_false (by simp [isFailure]) h
  · intro h0 h100
    unfold MaterialCalculator.set_reserve_percent
    rw [if_neg (by push_neg; exact ⟨h0, h100⟩)]
  · norm_num [MaterialCalculator.set_reserve_percent, isFailure]
  · norm_num [MaterialCalculator.set_reserve_percent, isFailure]
  · norm_num [MaterialCalculator.set_reserve_percent]
  · norm_num [MaterialCalculator.set_reserve_percent]
  · intro hok
    unfold MaterialCalculator.set_reserve_percent at hok
    by_cases hv : v < 0 ∨ v > 100
    · rw [if_pos hv] at hok
      exact absurd hok (by simp)
    · rw [if_neg hv] at hok
      push_neg at hv
      have hc₂ : c₂ = { c with reserve_percent := v } := by
        injection hok with h
        exact h.symm
      rw [hc₂]
      exact ⟨hv.1, hv.2⟩
  · by_cases hemp : materials.isEmpty
    · simp [MaterialCalculator.compare_materials, hemp]
    · rcases hloop : compareLoop area c materials with ⟨res, c₁⟩
      have hres : c₁.reserve_percent = c.reserve_percent := by
        have h := compareLoop_reserve area materials c
        rw [hloop] at h
        exact h
      cases res <;>
        simp [MaterialCalculator.compare_materials, hemp, hloop, hres]

/-- C4 witness: setting the reserve to 50 on a default calculator succeeds. -/
theorem C4_reserve_setter_contract_witness :
    (MaterialCalculator.initDefault).set_reserve_percent 50 =
      Except.ok (MaterialCalculator.mk 50 []) :=
  (C4_reserve_setter_contract MaterialCalculator.initDefault (MaterialCalculator.mk 50 [])
    50 1 (Material.init "m" 1 1) []).2.1 (by norm_num) (by norm_num)

/-- C4 counterexample: the constructor stores `reserve_percent = -1`
unvalidated, so a reachable state violates the claimed `[0, 100]`
invariant. -/
theorem C4_reserve_setter_contract_counterexample :
    (MaterialCalculator.init (-1)).reserve_percent = -1 ∧
    ¬ 0 ≤ (MaterialCalculator.init (-1)).reserve_percent := by
  norm_num [MaterialCalculator.init]

/-- C5: `calculate_wall_area` fails with `InvalidArgument` exactly when
`perimeter ≤ 0`, `height ≤ 0`, an opening area is negative, or
`perimeter*height - door_area - window_area ≤ 0`; on all other inputs it
returns that difference. -/
theorem C5_wall_area_contract (perimeter height door_area window_area : ℚ) :
    (isInvalidArg (RoomCalculator.calculate_wall_area perimeter height door_area window_area) =
        true ↔
      perimeter ≤ 0 ∨ height ≤ 0 ∨ door_area < 0 ∨ window_area < 0 ∨
        perimeter * height - door_area - window_area ≤ 0) ∧
    (0 < perimeter → 0 < height → 0 ≤ door_area → 0 ≤ window_area →
      0 < perimeter * height - door_area - window_area →
      RoomCalculator.calculate_wall_area perimeter height door_area window_area =
        Except.ok (perimeter * height - door_area - window_area)) := by
  constructor
  · simp only [RoomCalculator.calculate_wall_area]
    split_ifs with h1 h2 h3
    · exact iff_of_true rfl (by tauto)
    · exact iff_of_true rfl (by tauto)
    · exact iff_of_true rfl (by tauto)
    · push_neg at h1 h2
      refine iff_of_false (by simp [isInvalidArg]) ?_
      rintro (h | h | h | h | h)
      · exact absurd h (not_le.mpr h1.1)
      · exact absurd h (not_le.mpr h1.2)
      · exact absurd h (not_lt.mpr h2.1)
      · exact absurd h (not_lt.mpr h2.2)
      · exact h3 h
  · intro hp hh hd hw hres
    simp only [RoomCalculator.calculate_wall_area]
    rw [if_neg (by push_neg; exact ⟨hp, hh⟩), if_neg (by push_neg; exact ⟨hd, hw⟩),
      if_neg (not_le.mpr hres)]

/-- C5 witness: perimeter 10, height 3, openings 1 and 1 give wall area
`10*3 - 1 - 1`. -/
theorem C5_wall_area_contract_witness :
    RoomCalculator.calculate_wall_area 10 3 1 1 = Except.ok (10 * 3 - 1 - 1) :=
  (C5_wall_area_contract 10 3 1 1).2 (by norm_num) (by norm_num) (by norm_num) (by norm_num)
    (by norm_num)

/-- C6 (amended): `calculate_wall_area(10, 2.5, 5, 5)` returns `15.0`
(`10*2.5 - 5 - 5 = 15`, not the `20.0` the spec's example states), and
`calculate_wall_area(10, 2.5, 12, 13)` fails with `InvalidArgument` because
the remaining wall area is `≤ 0`. -/
theorem C6_wall_area_example :
    RoomCalculator.calculate_wall_area 10 (2.5 : ℚ) 5 5 = Except.ok 15 ∧
    RoomCalculator.calculate_wall_area 10 (2.5 : ℚ) 12 13 =
      Except.error (PyError.invalidArgument
        "Площадь стен после вычета дверей и окон должна быть положительной") := by
  constructor <;> norm_num [RoomCalculator.calculate_wall_area]

/-- C6 counterexample: at `(10, 2.5, 5, 5)` the code returns `15.0`, not the
`20.0` claimed by the spec's example. -/
theorem C6_wall_area_example_counterexample :
    RoomCalculator.calculate_wall_area 10 (2.5 : ℚ) 5 5 = Except.ok 15 ∧
    RoomCalculator.calculate_wall_area 10 (2.5 : ℚ) 5 5 ≠ Except.ok 20 := by
  constructor <;> norm_num [RoomCalculator.calculate_wall_area]

/-- C7: each subtype derives `unit_coverage` at construction —
`Wallpaper` as `roll_width*roll_length`, `Tile` as
`tile_width*tile_height*tiles_per_box`, `Laminate` as
`plank_width*plank_length*planks_per_pack`; a roll 0.53 × 10.05 covers
5.3265 (within 1e-6, here exactly) and a 0.3 × 0.3 tile, 8 per box, covers
0.72. -/
theorem C7_subtype_coverage (name : String)
    (price rollW rollL tileW tileH plankW plankL : ℚ) (tilesPerBox planksPerPack : ℕ) :
    (Wallpaper.init name price rollW rollL).toMaterial.unit_coverage = rollW * rollL ∧
    (Tile.init name price tilesPerBox tileW tileH).toMaterial.unit_coverage =
      tileW * tileH * (tilesPerBox : ℚ) ∧
    (Laminate.init name price planksPerPack plankW plankL).toMaterial.unit_coverage =
      plankW * plankL * (planksPerPack : ℚ) ∧
    |(Wallpaper.init name price (0.53 : ℚ) (10.05 : ℚ)).toMaterial.unit_coverage -
        5.3265| < 1e-6 ∧
    (Tile.init name price 8 (0.3 : ℚ) (0.3 : ℚ)).toMaterial.unit_coverage = 0.72 := by
  refine ⟨rfl, rfl, rfl, ?_, ?_⟩ <;> norm_num [Wallpaper.init, Tile.init]

/-- C8: `get_history` returns the history as an immutable value (Python's
`.copy()` guards the internal list against caller mutation; Lean's value
semantics model exactly that independence — a value obtained before an
operation is unaffected by it); `clear_history` empties the history, so a
following `get_history` returns `[]`, while the value returned before the
clear still holds the pre-clear history. -/
theorem C8_history_copy_and_clear (c : MaterialCalculator) :
    c.get_history = c.calculations_history ∧
    (c.clear_history).get_history = [] ∧
    (c.clear_history).reserve_percent = c.reserve_percent :=
  ⟨rfl, rfl, rfl⟩

/-- C9 (amended): the base `Material` constructor performs no validation and
stores `name`, `price_per_unit` and `unit_coverage` unchanged, so `Material`
values with `unit_coverage ≤ 0` or `price_per_unit < 0` are constructible:
the documented invariant `unit_coverage > 0 ∧ price_per_unit ≥ 0` is an
assumption on inputs, not established at construction. -/
theorem C9_constructor_stores_unvalidated (name : String) (price coverage : ℚ) :
    (Material.init name price coverage).name = name ∧
    (Material.init name price coverage).price_per_unit = price ∧
    (Material.init name price coverage).unit_coverage = coverage :=
  ⟨rfl, rfl, rfl⟩

/-- C9 counterexample: `Material("x", -5, 0)` is created by the public
constructor yet violates both claimed invariant bounds. -/
theorem C9_constructor_stores_unvalidated_counterexample :
    (Material.init "x" (-5) 0).unit_coverage = 0 ∧
    ¬ 0 < (Material.init "x" (-5) 0).unit_coverage ∧
    ¬ 0 ≤ (Material.init "x" (-5) 0).price_per_unit := by
  norm_num [Material.init]

/-- C10: for any material with `unit_coverage = 0` (constructible, since the
constructor validates nothing) and any `area > 0`, `calculate` passes the
area check and material type check and raises `ZeroDivisionError` from the
unguarded division — not `InvalidArgument` — leaving the state unchanged. -/
theorem C10_zero_coverage_division (c : MaterialCalculator) (m : Material) (area : ℚ)
    (hcov : m.unit_coverage = 0) (ha : 0 < area) :
    (c.calculate m area).1 = Except.error PyError.zeroDivisionError ∧
    isInvalidArg (c.calculate m area).1 = false ∧
    (c.calculate m area).2 = c ∧
    (Material.init "m" 1 0).unit_coverage = 0 := by
  unfold MaterialCalculator.calculate
  rw [if_neg (not_le.mpr ha), if_pos hcov]
  exact ⟨rfl, rfl, rfl, rfl⟩

/-- C10 witness: a concrete zero-coverage material at area 1. -/
theorem C10_zero_coverage_division_witness :
    ((MaterialCalculator.initDefault).calculate (Material.init "m" 1 0) 1).1 =
      Except.error PyError.zeroDivisionError :=
  (C10_zero_coverage_division MaterialCalculator.initDefault (Material.init "m" 1 0) 1
    rfl (by norm_num)).1

end Lab2
